import Mathlib

/-!
Verification of the viscous/turbulent wall boundary-condition and
wall-function core of the SU2 Navier-Stokes solver (files
`SU2_CFD/src/solvers/CNSSolver.cpp`, `SU2_CFD/src/solvers/CIncNSSolver.cpp`,
`SU2_CFD/include/numerics/turbulent/turb_sources.hpp`).

The C++ kernels are shallowly embedded:
* pure arithmetic kernels are translated to Lean functions over `ℚ`
  (the `su2double` arithmetic is exact field arithmetic in each claim's
  scope; square roots and norms computed by the external `GeometryToolbox`
  collaborator are passed in as inputs, as are quantities owned by external
  collaborators such as the stress tensor from `CNumerics::ComputeStressTensor`);
* the wall-function Newton iteration (`CNSSolver::SetTau_Wall_WF`), which
  uses `exp`, `asin`, `sqrt` and `pow`, is embedded over `ℝ` with the
  corresponding Mathlib functions, with the `while` loop written as a
  fuel-based recursion whose fuel is the configured maximum iteration
  count (the source's hard cap);
* `SU2_MPI::Error` (a process abort with a diagnostic string) is embedded
  as `Except.error` with the exact message string;
* side effects on the external state (residual container `LinSysRes`,
  sparse Jacobian operations `AddBlock2Diag` / `DeleteValsRowi` /
  `AddVal2Diag`, `SetVelocity_Old`, `SetTemperature`, the per-vertex
  `YPlus` / `EddyViscWall` / `UTau` caches) are recorded explicitly in
  result records.

Residual rows and small dense vectors/matrices are represented as
functions `ℕ → ℚ` (resp. `ℕ → ℕ → ℚ`); index `iDim + 1` for
`iDim < nDim` is a momentum entry and index `nDim + 1` the energy entry,
exactly as in the source.
-/

/-- `GeometryToolbox::DotProduct(nDim, a, b)`. -/
def dotProd (n : ℕ) (a b : ℕ → ℚ) : ℚ :=
  ∑ i ∈ Finset.range n, a i * b i

/-- `GeometryToolbox::SquaredNorm(nDim, a)`. -/
def sqNorm (n : ℕ) (a : ℕ → ℚ) : ℚ :=
  dotProd n a a

/-! ### Boundary-condition kind and CHT coupling enumerations

The numeric values of the C++ enumerators live in headers outside the
excerpt; the kernels only compare them for equality, so the embedding
fixes arbitrary distinct codes. -/

/-- BC kind `HEAT_FLUX`. -/
def HEAT_FLUX : ℕ := 0

/-- BC kind `ISOTHERMAL`. -/
def ISOTHERMAL : ℕ := 1

/-- BC kind `HEAT_TRANSFER`. -/
def HEAT_TRANSFER : ℕ := 2

/-- Wall-function treatment `NO_WALL_FUNCTION` / `WALL_FUNCTIONS::NONE`. -/
def NO_WALL_FUNCTION : ℕ := 0

/-- `CHT_COUPLING::AVERAGED_TEMPERATURE_NEUMANN_HEATFLUX`. -/
def AVERAGED_TEMPERATURE_NEUMANN_HEATFLUX : ℕ := 0

/-- `CHT_COUPLING::AVERAGED_TEMPERATURE_ROBIN_HEATFLUX`. -/
def AVERAGED_TEMPERATURE_ROBIN_HEATFLUX : ℕ := 1

/-- `CHT_COUPLING::DIRECT_TEMPERATURE_NEUMANN_HEATFLUX`. -/
def DIRECT_TEMPERATURE_NEUMANN_HEATFLUX : ℕ := 2

/-- `CHT_COUPLING::DIRECT_TEMPERATURE_ROBIN_HEATFLUX`. -/
def DIRECT_TEMPERATURE_ROBIN_HEATFLUX : ℕ := 3

/-! ### `CNSSolver::GetCHTWallTemperature` (CNSSolver.cpp:534-561) -/

/-- `CNSSolver::GetCHTWallTemperature`.  The trailing four parameters
`thermal_conductivity`, `dist_ij`, `There`, `Temperature_Ref` are in the
exact order of the C++ signature (CNSSolver.cpp:534-536).  `coupling` is
`config->GetKind_CHT_Coupling()`, `Viscosity_Ref` is
`config->GetViscosity_Ref()`, `conjVar0` and `conjVar2` are
`GetConjugateHeatVariable(val_marker, iVertex, 0)` and `(..., 2)`.
`SU2_MPI::Error` is embedded as `Except.error`. -/
def GetCHTWallTemperature (coupling : ℕ) (Viscosity_Ref conjVar0 conjVar2 : ℚ)
    (thermal_conductivity dist_ij There Temperature_Ref : ℚ) : Except String ℚ :=
  let Tconjugate := conjVar0 / Temperature_Ref
  if coupling = AVERAGED_TEMPERATURE_NEUMANN_HEATFLUX ∨
     coupling = AVERAGED_TEMPERATURE_ROBIN_HEATFLUX then
    let HF_FactorHere := thermal_conductivity * Viscosity_Ref / dist_ij
    let HF_FactorConjugate := conjVar2
    Except.ok ((There * HF_FactorHere + Tconjugate * HF_FactorConjugate) /
               (HF_FactorHere + HF_FactorConjugate))
  else if coupling = DIRECT_TEMPERATURE_NEUMANN_HEATFLUX ∨
          coupling = DIRECT_TEMPERATURE_ROBIN_HEATFLUX then
    Except.ok Tconjugate
  else
    Except.error "Unknown CHT coupling method."

/-- The call of `GetCHTWallTemperature` made by
`CNSSolver::BC_Isothermal_Wall_Generic` (CNSSolver.cpp:970):
`GetCHTWallTemperature(config, val_marker, iVertex, dist_ij,
thermal_conductivity, There, Temperature_Ref)`.  Note the call passes
`dist_ij` in the callee's `thermal_conductivity` position and
`thermal_conductivity` in the callee's `dist_ij` position. -/
def cnsCHTWallTemperatureAtCall (coupling : ℕ) (Viscosity_Ref conjVar0 conjVar2 : ℚ)
    (dist_ij thermal_conductivity There Temperature_Ref : ℚ) : Except String ℚ :=
  GetCHTWallTemperature coupling Viscosity_Ref conjVar0 conjVar2
    dist_ij thermal_conductivity There Temperature_Ref

/-- Wall-temperature computation of
`CIncNSSolver::BC_ConjugateHeat_Interface` (CIncNSSolver.cpp:392-426),
which inlines the same coupling laws (with the correct operands:
`HF_FactorHere = thermal_conductivity*config->GetViscosity_Ref()/dist_ij`). -/
def incCHTWallTemperature (coupling : ℕ) (Viscosity_Ref conjVar0 conjVar2 : ℚ)
    (thermal_conductivity dist_ij There Temperature_Ref : ℚ) : Except String ℚ :=
  let Tconjugate := conjVar0 / Temperature_Ref
  if coupling = AVERAGED_TEMPERATURE_NEUMANN_HEATFLUX ∨
     coupling = AVERAGED_TEMPERATURE_ROBIN_HEATFLUX then
    let HF_FactorHere := thermal_conductivity * Viscosity_Ref / dist_ij
    let HF_FactorConjugate := conjVar2
    Except.ok ((There * HF_FactorHere + Tconjugate * HF_FactorConjugate) /
               (HF_FactorHere + HF_FactorConjugate))
  else if coupling = DIRECT_TEMPERATURE_NEUMANN_HEATFLUX ∨
          coupling = DIRECT_TEMPERATURE_ROBIN_HEATFLUX then
    Except.ok Tconjugate
  else
    Except.error "Unknown CHT coupling method."

/-! ### `CSourcePieceWise_TurbSST::ResidualAxisymmetric`
(turb_sources.hpp:337-368) -/

/-- Inputs of `ResidualAxisymmetric`: the member state of
`CSourcePieceWise_TurbSST` read by the routine.  `eps` is the global
constant `EPS` (defined in a common header outside the excerpt),
`Coord_y = Coord_i[1]`, `v = V_i[2]` (y-velocity), `dvdy =
PrimVar_Grad_i[2][1]`, `dudx = PrimVar_Grad_i[1][0]`, `dkdy =
ScalarVar_Grad_i[0][1]`, `dwdy = ScalarVar_Grad_i[1][1]`. -/
structure SSTAxiIn where
  eps : ℚ
  Coord_y : ℚ
  Volume : ℚ
  Density : ℚ
  v : ℚ
  k : ℚ
  w : ℚ
  F1 : ℚ
  sigma_k_1 : ℚ
  sigma_k_2 : ℚ
  sigma_w_1 : ℚ
  sigma_w_2 : ℚ
  Laminar_Viscosity : ℚ
  Eddy_Viscosity : ℚ
  dvdy : ℚ
  dudx : ℚ
  dkdy : ℚ
  dwdy : ℚ

/-- `CSourcePieceWise_TurbSST::ResidualAxisymmetric(alfa_blended, zeta)`:
takes the current two-entry residual and returns the updated residual. -/
def ResidualAxisymmetric (I : SSTAxiIn) (alfa_blended zeta : ℚ) (Res : ℚ × ℚ) : ℚ × ℚ :=
  if I.Coord_y < I.eps then Res
  else
    let yinv := 1 / I.Coord_y
    let rhov := I.Density * I.v
    let k := I.k
    let w := I.w
    let sigma_k_i := I.F1 * I.sigma_k_1 + (1 - I.F1) * I.sigma_k_2
    let sigma_w_i := I.F1 * I.sigma_w_1 + (1 - I.F1) * I.sigma_w_2
    let pk_axi := max 0 (2/3 * rhov * k * (2/zeta * (yinv * I.v - I.dvdy - I.dudx) - 1))
    let pw_axi := alfa_blended * zeta / k * pk_axi
    let cdk_axi := rhov * k - (I.Laminar_Viscosity + sigma_k_i * I.Eddy_Viscosity) * I.dkdy
    let cdw_axi := rhov * w - (I.Laminar_Viscosity + sigma_w_i * I.Eddy_Viscosity) * I.dwdy
    (Res.1 + yinv * I.Volume * (pk_axi - cdk_axi),
     Res.2 + yinv * I.Volume * (pw_axi - cdw_axi))

/-! ### Sparse-Jacobian block helpers

A per-vertex Jacobian block `Jacobian_i` is a small dense matrix,
represented as `ℕ → ℕ → ℚ`.  `jacAdd J r c v` mirrors
`Jacobian_i[r][c] += v`; `jacSet J r c v` mirrors `Jacobian_i[r][c] = v`;
`jacZeroRow J r n` mirrors `for (iVar = 0; iVar < nVar; ++iVar)
Jacobian_i[r][iVar] = 0.0` with `nVar = n + 2`. -/

/-- `Jacobian_i[r][c] += v`. -/
def jacAdd (J : ℕ → ℕ → ℚ) (r c : ℕ) (v : ℚ) : ℕ → ℕ → ℚ :=
  fun i j => if i = r ∧ j = c then J i j + v else J i j

/-- `Jacobian_i[r][c] = v`. -/
def jacSet (J : ℕ → ℕ → ℚ) (r c : ℕ) (v : ℚ) : ℕ → ℕ → ℚ :=
  fun i j => if i = r ∧ j = c then v else J i j

/-- Zero the row `r` of `Jacobian_i` over columns `0 .. nVar-1` with
`nVar = n + 2`. -/
def jacZeroRow (J : ℕ → ℕ → ℚ) (r n : ℕ) : ℕ → ℕ → ℚ :=
  fun i j => if i = r ∧ j < n + 2 then 0 else J i j

/-- The all-zero Jacobian block (a freshly allocated
`new su2double[nVar]()` row array). -/
def jacZero : ℕ → ℕ → ℚ := fun _ _ => 0

/-! ### `CNSSolver::AddDynamicGridResidualContribution`
(CNSSolver.cpp:294-381) -/

/-- State read by `AddDynamicGridResidualContribution`: geometry and
per-point primitive data.  `tau` is the viscous stress tensor produced
by `CNumerics::ComputeStressTensor(nDim, tau, gradient, total_viscosity)`,
a collaborator outside this excerpt, hence an input. -/
structure DynGridIn where
  nDim : ℕ
  Gamma : ℚ
  UnitNormal : ℕ → ℚ
  Area : ℚ
  GridVel : ℕ → ℚ
  Density : ℚ
  Pressure : ℚ
  laminar_viscosity : ℚ
  eddy_viscosity : ℚ
  tau : ℕ → ℕ → ℚ
  dist_ij : ℚ

/-- `CNSSolver::AddDynamicGridResidualContribution`: updates
`(Res_Conv, Res_Visc)` and, when `Jacobian_i` is present (non-null),
the energy row of the Jacobian block. -/
def AddDynamicGridResidualContribution (D : DynGridIn)
    (Jacobian_i : Option (ℕ → ℕ → ℚ)) (Res_Conv Res_Visc : ℚ) :
    ℚ × ℚ × Option (ℕ → ℕ → ℚ) :=
  let n := D.nDim
  let ProjGridVel := D.Area * dotProd n D.GridVel D.UnitNormal
  let total_viscosity := D.laminar_viscosity + D.eddy_viscosity
  let tau_vel : ℕ → ℚ := fun i => dotProd n (D.tau i) D.GridVel
  let Res_Conv' := Res_Conv + D.Pressure * ProjGridVel
  let Res_Visc' := Res_Visc + dotProd n tau_vel D.UnitNormal * D.Area
  let Jacobian_i' :=
    match Jacobian_i with
    | none => none
    | some J =>
      let GridVel2 := sqNorm n D.GridVel
      let J := jacAdd J (n + 1) 0 (0.5 * (D.Gamma - 1) * GridVel2 * ProjGridVel)
      let J := fun i j =>
        if i = n + 1 ∧ 1 ≤ j ∧ j ≤ n then
          J i j + (-(D.Gamma - 1) * D.GridVel (j - 1) * ProjGridVel)
        else J i j
      let J := jacAdd J (n + 1) (n + 1) ((D.Gamma - 1) * ProjGridVel)
      let factor := total_viscosity * D.Area / (D.Density * D.dist_ij)
      let theta2 : ℚ := 1
      if n = 2 then
        let thetax := theta2 + D.UnitNormal 0 * D.UnitNormal 0 / 3
        let thetay := theta2 + D.UnitNormal 1 * D.UnitNormal 1 / 3
        let etaz := D.UnitNormal 0 * D.UnitNormal 1 / 3
        let pix := D.GridVel 0 * thetax + D.GridVel 1 * etaz
        let piy := D.GridVel 0 * etaz + D.GridVel 1 * thetay
        let J := jacAdd J (n + 1) 0 (factor * (-pix * D.GridVel 0 + piy * D.GridVel 1))
        let J := jacAdd J (n + 1) 1 (factor * pix)
        let J := jacAdd J (n + 1) 2 (factor * piy)
        some J
      else
        let thetax := theta2 + D.UnitNormal 0 * D.UnitNormal 0 / 3
        let thetay := theta2 + D.UnitNormal 1 * D.UnitNormal 1 / 3
        let thetaz := theta2 + D.UnitNormal 2 * D.UnitNormal 2 / 3
        let etaz := D.UnitNormal 0 * D.UnitNormal 1 / 3
        let etax := D.UnitNormal 1 * D.UnitNormal 2 / 3
        let etay := D.UnitNormal 0 * D.UnitNormal 2 / 3
        let pix := D.GridVel 0 * thetax + D.GridVel 1 * etaz + D.GridVel 2 * etay
        let piy := D.GridVel 0 * etaz + D.GridVel 1 * thetay + D.GridVel 2 * etax
        let piz := D.GridVel 0 * etay + D.GridVel 1 * etax + D.GridVel 2 * thetaz
        let J := jacAdd J (n + 1) 0
          (factor * (-pix * D.GridVel 0 + piy * D.GridVel 1 + piz * D.GridVel 2))
        let J := jacAdd J (n + 1) 1 (factor * pix)
        let J := jacAdd J (n + 1) 2 (factor * piy)
        let J := jacAdd J (n + 1) 3 (factor * piz)
        some J
  (Res_Conv', Res_Visc', Jacobian_i')

/-! ### `CNSSolver::BC_HeatFlux_Wall_Generic` (CNSSolver.cpp:393-532)

Per-vertex body of the marker loop (lines 428-525), after the preamble
(lines 398-423) has resolved the configuration.  `cfgHeatFlux` is
`config->GetWall_HeatFlux(Marker_Tag)/config->GetHeat_Flux_Ref()` (set
only for `kind_boundary == HEAT_FLUX`), `Transfer_Coefficient` and
`Tinfinity` the scaled heat-transfer parameters (set only for
`HEAT_TRANSFER`). -/

/-- Inputs of one vertex of `BC_HeatFlux_Wall_Generic`. -/
structure HFWallIn where
  nDim : ℕ
  kind_boundary : ℕ
  implicitScheme : Bool
  dynamic_grid : Bool
  pyCustom : Bool
  customHeatFlux : ℚ
  cfgHeatFlux : ℚ
  Transfer_Coefficient : ℚ
  Tinfinity : ℚ
  Gamma : ℚ
  Gas_Constant : ℚ
  /-- `geometry->vertex[...]->GetNormal()`. -/
  Normal : ℕ → ℚ
  /-- `GeometryToolbox::Norm(nDim, Normal)` (external square root). -/
  Area : ℚ
  /-- `nodes->GetTemperature(iPoint)`. -/
  T_i : ℚ
  /-- `nodes->GetDensity(iPoint)`. -/
  Density : ℚ
  /-- `nodes->GetVelocity2(iPoint)`. -/
  Vel2 : ℚ
  /-- `nodes->GetVelocity(iPoint, iDim)`. -/
  Vel : ℕ → ℚ
  Pressure : ℚ
  laminar_viscosity : ℚ
  eddy_viscosity : ℚ
  /-- Stress tensor from `CNumerics::ComputeStressTensor` (external). -/
  tau : ℕ → ℕ → ℚ
  /-- `geometry->nodes->GetGridVel(iPoint)`. -/
  GridVel : ℕ → ℚ
  dist_ij : ℚ
  /-- `LinSysRes` row at `iPoint` before the kernel. -/
  res0 : ℕ → ℚ

/-- Recorded effects of one vertex of a wall BC kernel on the external
collaborators. -/
structure HFWallOut where
  /-- `LinSysRes` row at `iPoint` after the kernel. -/
  res : ℕ → ℚ
  /-- Value stored by `nodes->SetVelocity_Old`. -/
  velOld : ℕ → ℚ
  /-- `nodes->SetVel_ResTruncError_Zero(iPoint)` was called. -/
  velResTruncZeroed : Bool
  /-- Block passed to `Jacobian.AddBlock2Diag(iPoint, ...)`, if called. -/
  jacAddBlock : Option (ℕ → ℕ → ℚ)
  /-- Local variable indices `iVar` with `Jacobian.DeleteValsRowi(iPoint*nVar+iVar)`. -/
  deletedRows : List ℕ
  /-- The per-vertex `Wall_HeatFlux` value used in `Res_Visc`. -/
  wallHeatFlux : ℚ

/-- One vertex of `CNSSolver::BC_HeatFlux_Wall_Generic`
(CNSSolver.cpp:428-525, for a vertex in the domain). -/
def bcHeatFluxWallVertex (I : HFWallIn) : HFWallOut :=
  let n := I.nDim
  -- lines 435-442: per-vertex wall heat flux
  let Wall_HeatFlux :=
    if I.pyCustom then I.customHeatFlux
    else if I.kind_boundary = HEAT_TRANSFER then
      I.Transfer_Coefficient * (I.Tinfinity - I.T_i)
    else if I.kind_boundary = HEAT_FLUX then I.cfgHeatFlux
    else 0
  -- lines 446-451
  let UnitNormal : ℕ → ℚ := fun i => -I.Normal i / I.Area
  -- lines 457-458
  let Res_Conv : ℚ := 0
  let Res_Visc : ℚ := Wall_HeatFlux * I.Area
  -- lines 464-472: strong Dirichlet velocity
  let velOld : ℕ → ℚ := if I.dynamic_grid then I.GridVel else fun _ => 0
  let res1 : ℕ → ℚ := fun i => if 1 ≤ i ∧ i ≤ n then 0 else I.res0 i
  -- line 420: Jacobian_i allocated (zero-initialized) only when needed
  let Jacobian_i : Option (ℕ → ℕ → ℚ) :=
    if (I.dynamic_grid ∨ I.kind_boundary = HEAT_TRANSFER) ∧ I.implicitScheme then
      some jacZero
    else none
  -- lines 477-486: moving-wall contribution
  let dyn :=
    if I.dynamic_grid then
      let Jacobian_i :=
        if I.implicitScheme then
          Jacobian_i.map (fun J => jacZeroRow J (n + 1) n)
        else Jacobian_i
      let D : DynGridIn :=
        { nDim := n, Gamma := I.Gamma, UnitNormal := UnitNormal, Area := I.Area,
          GridVel := I.GridVel, Density := I.Density, Pressure := I.Pressure,
          laminar_viscosity := I.laminar_viscosity, eddy_viscosity := I.eddy_viscosity,
          tau := I.tau, dist_ij := I.dist_ij }
      AddDynamicGridResidualContribution D Jacobian_i Res_Conv Res_Visc
    else (Res_Conv, Res_Visc, Jacobian_i)
  let Res_Conv := dyn.1
  let Res_Visc := dyn.2.1
  let Jacobian_i := dyn.2.2
  -- line 490: energy residual
  let res2 : ℕ → ℚ := fun i => if i = n + 1 then res1 i + (Res_Conv - Res_Visc) else res1 i
  -- lines 496-524: implicit contributions
  let implicitPart :=
    if I.implicitScheme then
      let Jacobian_i :=
        if I.kind_boundary = HEAT_TRANSFER then
          Jacobian_i.map (fun J =>
            let J := if ¬I.dynamic_grid then jacZeroRow J (n + 1) n else J
            let oneOnRho := 1 / I.Density
            let oneOnCv := (I.Gamma - 1) / I.Gas_Constant
            let dTdrho := oneOnRho * (-I.Tinfinity + oneOnCv * 0.5 * I.Vel2)
            let dTdrhoe := oneOnCv * oneOnRho
            let J := jacAdd J (n + 1) 0 (I.Transfer_Coefficient * dTdrho * I.Area)
            let J := fun i j =>
              if i = n + 1 ∧ 1 ≤ j ∧ j ≤ n then
                J i j - I.Transfer_Coefficient * dTdrhoe * I.Vel (j - 1) * I.Area
              else J i j
            jacAdd J (n + 1) (n + 1) (I.Transfer_Coefficient * dTdrhoe * I.Area))
        else Jacobian_i
      let jacAddBlock :=
        if I.dynamic_grid ∨ I.kind_boundary = HEAT_TRANSFER then Jacobian_i else none
      let deletedRows := (List.range n).map (· + 1)
      (jacAddBlock, deletedRows)
    else (none, [])
  { res := res2, velOld := velOld, velResTruncZeroed := true,
    jacAddBlock := implicitPart.1, deletedRows := implicitPart.2,
    wallHeatFlux := Wall_HeatFlux }

/-- The Jacobian block effectively added at the vertex: the argument of
`AddBlock2Diag` when it is called, the zero block otherwise (adding the
zero block is the identity update). -/
def appliedJac (o : HFWallOut) : ℕ → ℕ → ℚ :=
  o.jacAddBlock.getD jacZero

/-! ### `CNSSolver::BC_Isothermal_Wall_Generic` (CNSSolver.cpp:883-1031)

Per-vertex body of the marker loop (lines 916-1024), after the preamble
(lines 886-900).  `Twall_cfg` is
`config->GetIsothermal_Temperature(Marker_Tag)/Temperature_Ref` (non-CHT
case), `Twall_custom` the Python-custom boundary temperature. -/

/-- Inputs of one vertex of `BC_Isothermal_Wall_Generic`. -/
structure IsoWallIn where
  nDim : ℕ
  implicitScheme : Bool
  dynamic_grid : Bool
  cht_mode : Bool
  pyCustom : Bool
  cht_coupling : ℕ
  Viscosity_Ref : ℚ
  conjVar0 : ℚ
  conjVar2 : ℚ
  Temperature_Ref : ℚ
  Twall_cfg : ℚ
  Twall_custom : ℚ
  Prandtl_Lam : ℚ
  Prandtl_Turb : ℚ
  Gas_Constant : ℚ
  Gamma : ℚ
  Normal : ℕ → ℚ
  Area : ℚ
  dist_ij : ℚ
  /-- `nodes->GetLaminarViscosity(iPoint)`. -/
  laminar_viscosity : ℚ
  /-- `nodes->GetEddyViscosity(iPoint)`. -/
  eddy_viscosity : ℚ
  /-- `nodes->GetTemperature(Point_Normal)`. -/
  There : ℚ
  /-- `nodes->GetDensity(iPoint)`. -/
  Density : ℚ
  /-- `SquaredNorm(nDim, &nodes->GetPrimitive(iPoint)[1])`. -/
  Vel2 : ℚ
  Pressure : ℚ
  tau : ℕ → ℕ → ℚ
  GridVel : ℕ → ℚ
  res0 : ℕ → ℚ

/-- One vertex of `CNSSolver::BC_Isothermal_Wall_Generic`
(CNSSolver.cpp:916-1024, for a vertex in the domain).  Returns
`Except.error` when the CHT wall-temperature lookup aborts (unknown
coupling method). -/
def bcIsothermalWallVertex (I : IsoWallIn) : Except String HFWallOut := do
  let n := I.nDim
  let UnitNormal : ℕ → ℚ := fun i => -I.Normal i / I.Area
  -- lines 944-952: strong Dirichlet velocity
  let velOld : ℕ → ℚ := if I.dynamic_grid then I.GridVel else fun _ => 0
  let res1 : ℕ → ℚ := fun i => if 1 ≤ i ∧ i ≤ n then 0 else I.res0 i
  -- lines 956-958: transport coefficients
  let Cp := I.Gamma / (I.Gamma - 1) * I.Gas_Constant
  let thermal_conductivity :=
    Cp * (I.laminar_viscosity / I.Prandtl_Lam + I.eddy_viscosity / I.Prandtl_Turb)
  -- lines 965-973: wall temperature (config, CHT or Python-custom);
  -- note the CHT call at line 970 passes (dist_ij, thermal_conductivity)
  -- into the (thermal_conductivity, dist_ij) parameter slots.
  let Twall ←
    if I.cht_mode then
      cnsCHTWallTemperatureAtCall I.cht_coupling I.Viscosity_Ref I.conjVar0 I.conjVar2
        I.dist_ij thermal_conductivity I.There I.Temperature_Ref
    else if I.pyCustom then pure I.Twall_custom
    else pure I.Twall_cfg
  -- lines 977-983
  let dTdn := -(I.There - Twall) / I.dist_ij
  let Res_Conv : ℚ := 0
  let Res_Visc : ℚ := thermal_conductivity * dTdn * I.Area
  -- line 908: Jacobian_i allocated (zero rows) whenever implicit
  let Jacobian_i : Option (ℕ → ℕ → ℚ) :=
    if I.implicitScheme then some jacZero else none
  -- lines 987-999: energy-row Jacobian (assignment, not accumulation)
  let Jacobian_i :=
    if I.implicitScheme then
      Jacobian_i.map (fun J =>
        let dTdrho := 1 / I.Density * (-Twall + (I.Gamma - 1) / I.Gas_Constant * (I.Vel2 / 2))
        let J := jacSet J (n + 1) 0 (thermal_conductivity / I.dist_ij * dTdrho * I.Area)
        let J := fun i j => if i = n + 1 ∧ 1 ≤ j ∧ j ≤ n then 0 else J i j
        jacSet J (n + 1) (n + 1)
          (thermal_conductivity / I.dist_ij * (I.Gamma - 1) / (I.Gas_Constant * I.Density) * I.Area))
    else Jacobian_i
  -- lines 1004-1007: moving-wall contribution
  let dyn :=
    if I.dynamic_grid then
      let D : DynGridIn :=
        { nDim := n, Gamma := I.Gamma, UnitNormal := UnitNormal, Area := I.Area,
          GridVel := I.GridVel, Density := I.Density, Pressure := I.Pressure,
          laminar_viscosity := I.laminar_viscosity, eddy_viscosity := I.eddy_viscosity,
          tau := I.tau, dist_ij := I.dist_ij }
      AddDynamicGridResidualContribution D Jacobian_i Res_Conv Res_Visc
    else (Res_Conv, Res_Visc, Jacobian_i)
  let Res_Conv := dyn.1
  let Res_Visc := dyn.2.1
  let Jacobian_i := dyn.2.2
  -- line 1011
  let res2 : ℕ → ℚ := fun i => if i = n + 1 then res1 i + (Res_Conv - Res_Visc) else res1 i
  -- lines 1017-1023
  let implicitPart :=
    if I.implicitScheme then (Jacobian_i, (List.range n).map (· + 1))
    else (none, [])
  pure { res := res2, velOld := velOld, velResTruncZeroed := true,
         jacAddBlock := implicitPart.1, deletedRows := implicitPart.2,
         wallHeatFlux := 0 }

/-! ### `CIncNSSolver::BC_Wall_Generic` (CIncNSSolver.cpp:186-325) -/

/-- Marker-level preamble of `CIncNSSolver::BC_Wall_Generic`
(CIncNSSolver.cpp:207-222): resolves `(Wall_HeatFlux, Twall)` from the
configuration or aborts.  `SU2_MPI::Error` is embedded as
`Except.error` (the source's misspelling "treament" is kept). -/
def bcWallGenericIncPreamble (kind_boundary Wall_Function : ℕ)
    (cfgHeatFlux Heat_Flux_Ref cfgTiso Temperature_Ref : ℚ) : Except String (ℚ × ℚ) := do
  let fluxTwall ←
    if kind_boundary = HEAT_FLUX then
      pure (cfgHeatFlux / Heat_Flux_Ref, (0 : ℚ))
    else if kind_boundary = ISOTHERMAL then
      pure ((0 : ℚ), cfgTiso / Temperature_Ref)
    else
      Except.error "Unknown type of boundary condition"
  if Wall_Function ≠ NO_WALL_FUNCTION then
    Except.error "Wall function treament not implemented yet"
  else
    pure fluxTwall

/-- Inputs of one vertex of `CIncNSSolver::BC_Wall_Generic`
(CIncNSSolver.cpp:227-324). -/
structure IncWallIn where
  nDim : ℕ
  kind_boundary : ℕ
  implicitScheme : Bool
  dynamic_grid : Bool
  energy : Bool
  streamwise_periodic : Bool
  streamwise_periodic_temperature : Bool
  Wall_HeatFlux : ℚ
  Twall : ℚ
  Normal : ℕ → ℚ
  Area : ℚ
  GridVel : ℕ → ℚ
  /-- `nodes->GetSpecificHeatCp(iPoint)`. -/
  Cp : ℚ
  /-- `nodes->GetThermalConductivity(iPoint)`. -/
  thermal_conductivity : ℚ
  /-- `nodes->GetTemperature(Point_Normal)`. -/
  There : ℚ
  /-- `Coord_i - Coord_j` difference vector (`GeometryToolbox::Distance`). -/
  Edge_Vector : ℕ → ℚ
  /-- `sqrt(dist_ij_2)` (external square root of `sqNorm nDim Edge_Vector`). -/
  dist_ij : ℚ
  Streamwise_Periodic_IntegratedHeatFlow : ℚ
  Streamwise_Periodic_MassFlow : ℚ
  /-- `config->GetPeriodic_Translation(0)`. -/
  translation : ℕ → ℚ
  res0 : ℕ → ℚ

/-- Recorded effects of one vertex of `CIncNSSolver::BC_Wall_Generic`. -/
structure IncWallOut where
  res : ℕ → ℚ
  velOld : ℕ → ℚ
  velResTruncZeroed : Bool
  deletedRows : List ℕ
  /-- Value added by `Jacobian.AddVal2Diag(iPoint, nDim+1, ...)`, if called. -/
  jacAddVal2Diag : Option ℚ

/-- One vertex of `CIncNSSolver::BC_Wall_Generic`
(CIncNSSolver.cpp:227-324, for a vertex in the domain). -/
def bcWallGenericIncVertex (I : IncWallIn) : IncWallOut :=
  let n := I.nDim
  -- lines 244-253: strong Dirichlet velocity
  let velOld : ℕ → ℚ := if I.dynamic_grid then I.GridVel else fun _ => 0
  let res1 : ℕ → ℚ := fun i => if 1 ≤ i ∧ i ≤ n then 0 else I.res0 i
  -- lines 258-261
  let deletedRows := if I.implicitScheme then (List.range n).map (· + 1) else []
  if ¬I.energy then
    { res := res1, velOld := velOld, velResTruncZeroed := true,
      deletedRows := deletedRows, jacAddVal2Diag := none }
  else if I.kind_boundary = HEAT_FLUX then
    -- lines 265-287
    let res2 : ℕ → ℚ := fun i =>
      if i = n + 1 then res1 i - I.Wall_HeatFlux * I.Area else res1 i
    let res3 : ℕ → ℚ :=
      if I.streamwise_periodic ∧ I.streamwise_periodic_temperature then
        let norm2_translation := sqNorm n I.translation
        let scalar_factor := I.Streamwise_Periodic_IntegratedHeatFlow * I.thermal_conductivity /
          (I.Streamwise_Periodic_MassFlow * I.Cp * norm2_translation)
        let dot_product := dotProd n I.translation I.Normal
        fun i => if i = n + 1 then res2 i + scalar_factor * dot_product else res2 i
      else res2
    { res := res3, velOld := velOld, velResTruncZeroed := true,
      deletedRows := deletedRows, jacAddVal2Diag := none }
  else
    -- lines 289-323 (ISOTHERMAL)
    let dist_ij_2 := sqNorm n I.Edge_Vector
    let dTdn := -(I.There - I.Twall) / I.dist_ij
    let res2 : ℕ → ℚ := fun i =>
      if i = n + 1 then res1 i - I.thermal_conductivity * dTdn * I.Area else res1 i
    let jacVal :=
      if I.implicitScheme then
        let proj_vector_ij :=
          if dist_ij_2 > 0 then dotProd n I.Edge_Vector I.Normal / dist_ij_2 else 0
        some (I.thermal_conductivity * proj_vector_ij)
      else none
    { res := res2, velOld := velOld, velResTruncZeroed := true,
      deletedRows := deletedRows, jacAddVal2Diag := jacVal }

/-! ### `CIncNSSolver::BC_ConjugateHeat_Interface` (CIncNSSolver.cpp:339-434) -/

/-- Recorded effects of one vertex of
`CIncNSSolver::BC_ConjugateHeat_Interface`. -/
structure IncCHTOut where
  res : ℕ → ℚ
  velOld : ℕ → ℚ
  deletedRows : List ℕ
  /-- Value stored by `nodes->SetSolution_Old(iPoint, nDim+1, Twall)`. -/
  solutionOldEnergy : Option ℚ

/-- One vertex of `CIncNSSolver::BC_ConjugateHeat_Interface`
(CIncNSSolver.cpp:359-433, for a vertex in the domain). -/
def bcConjugateHeatInterfaceIncVertex (nDim : ℕ)
    (implicitScheme dynamic_grid energy : Bool) (cht_coupling : ℕ)
    (Viscosity_Ref conjVar0 conjVar2 Temperature_Ref : ℚ)
    (thermal_conductivity dist_ij There : ℚ) (GridVel res0 : ℕ → ℚ) :
    Except String IncCHTOut := do
  let n := nDim
  let velOld : ℕ → ℚ := if dynamic_grid then GridVel else fun _ => 0
  let res1 : ℕ → ℚ := fun i => if 1 ≤ i ∧ i ≤ n then 0 else res0 i
  let deletedRows :=
    if implicitScheme then
      ((List.range n).map (· + 1)) ++ (if energy then [n + 1] else [])
    else []
  if ¬energy then
    pure { res := res1, velOld := velOld, deletedRows := deletedRows,
           solutionOldEnergy := none }
  else do
    let Twall ← incCHTWallTemperature cht_coupling Viscosity_Ref conjVar0 conjVar2
      thermal_conductivity dist_ij There Temperature_Ref
    -- lines 428-432: strong imposition of the temperature
    let res2 : ℕ → ℚ := fun i => if i = n + 1 then 0 else res1 i
    pure { res := res2, velOld := velOld, deletedRows := deletedRows,
           solutionOldEnergy := some Twall }

/-! ### `CNSSolver::SetTau_Wall_WF` (CNSSolver.cpp:1048-1309)

Per-vertex wall-function Newton solver (lines 1085-1277).  The
transcendental functions of the source (`exp`, `asin`, `sqrt`, `pow`)
force this embedding onto `ℝ` with the Mathlib counterparts
(`Real.exp`, `Real.arcsin`, `Real.sqrt`, `_ ^ _`), so these definitions
are `noncomputable`.  The `while (fabs(diff) > tol)` loop is a fuel
recursion: the source increments `counter` after every body execution
and breaks with fallback values once `counter > max_iter`, so the body
runs at most `max_iter + 1` times; `wfLoopAux` carries the number of
body executions still allowed after the current one. -/

/-- Per-vertex inputs of `SetTau_Wall_WF` (lines 1056-1176).
`VelTangMod`, `WallDistMod` and `WallShearStress` are the Euclidean
norms computed by `GeometryToolbox` / `CNumerics::ComputeStressTensor`
(external collaborators), `Recovery = pow(Prandtl_Lam, 1/3)`, `Cp =
Gamma/(Gamma-1)*Gas_Constant`, `q_w` the prescribed wall heat flux
(zero unless the marker is `HEAT_FLUX`), `isothermalMarker` the test
`config->GetMarker_All_KindBC(iMarker) == ISOTHERMAL`, and `eps` the
global constant `EPS` from a common header outside the excerpt. -/
structure WFParams where
  VelTangMod : ℝ
  WallDistMod : ℝ
  T_Normal : ℝ
  P_Normal : ℝ
  Lam_Visc_Normal : ℝ
  T_init : ℝ
  Lam_Visc_Wall : ℝ
  Conductivity_Wall : ℝ
  Eddy_Visc_init : ℝ
  WallShearStress : ℝ
  q_w : ℝ
  isothermalMarker : Bool
  Gas_Constant : ℝ
  Cp : ℝ
  Recovery : ℝ
  kappa : ℝ
  B : ℝ
  relax : ℝ
  max_iter : ℕ
  minYPlus : ℝ
  eps : ℝ

/-- Loop-carried state of the Newton iteration: the mutated locals
`U_Tau`, `T_Wall`, `Density_Wall`, `Y_Plus`, `Eddy_Visc_Wall`, `diff`
and `grad_diff`, plus the value written by `nodes->SetTemperature`
during the current iteration (if any). -/
structure WFState where
  U_Tau : ℝ
  T_Wall : ℝ
  Density_Wall : ℝ
  Y_Plus : ℝ
  Eddy_Visc : ℝ
  diff : ℝ
  grad_diff : ℝ
  lastTempWrite : Option ℝ

/-- Initial state before the Newton loop (CNSSolver.cpp:1146-1176):
`T_Wall = nodes->GetTemperature(iPoint)`, `P_Wall = P_Normal`,
`Density_Wall = P_Wall/(Gas_Constant*T_Wall)`,
`U_Tau = max(1e-6, sqrt(WallShearStress/Density_Wall))`,
`Y_Plus = 0.99*config->GetwallModel_MinYPlus()`, `diff = 1.0`. -/
noncomputable def wfInit (P : WFParams) : WFState :=
  let T_Wall := P.T_init
  let Density_Wall := P.P_Normal / (P.Gas_Constant * T_Wall)
  { U_Tau := max 1e-6 (Real.sqrt (P.WallShearStress / Density_Wall)),
    T_Wall := T_Wall,
    Density_Wall := Density_Wall,
    Y_Plus := 0.99 * P.minYPlus,
    Eddy_Visc := P.Eddy_Visc_init,
    diff := 1,
    grad_diff := 0,
    lastTempWrite := none }

/-- One execution of the Newton loop body (CNSSolver.cpp:1188-1251). -/
noncomputable def wfBody (P : WFParams) (s : WFState) : WFState :=
  let U_Plus := P.VelTangMod / s.U_Tau
  let Gam := P.Recovery * s.U_Tau * s.U_Tau / (2 * P.Cp * s.T_Wall)
  let Beta := P.q_w * P.Lam_Visc_Wall /
    (s.Density_Wall * s.T_Wall * P.Conductivity_Wall * s.U_Tau)
  let Q := Real.sqrt (Beta * Beta + 4 * Gam)
  let Phi := Real.arcsin (-1 * Beta / Q)
  -- lines 1202-1210: Crocco-Busemann update of T_Wall via SetTemperature
  -- unless the marker is isothermal or the denominator is degenerate
  let TW : ℝ × Option ℝ :=
    if P.isothermalMarker then (s.T_Wall, none)
    else
      let denum := 1 + Beta * U_Plus - Gam * U_Plus * U_Plus
      if denum > P.eps then (P.T_Normal / denum, some (P.T_Normal / denum))
      else (s.T_Wall, none)
  let T_Wall := TW.1
  let Density_Wall := P.P_Normal / (P.Gas_Constant * T_Wall)
  let Y_Plus_White :=
    Real.exp ((P.kappa / Real.sqrt Gam) *
      (Real.arcsin ((2 * Gam * U_Plus - Beta) / Q) - Phi)) *
    Real.exp (-1 * P.kappa * P.B)
  let kUp := P.kappa * U_Plus
  let Y_Plus := U_Plus + Y_Plus_White -
    (Real.exp (-1 * P.kappa * P.B) * (1 + kUp + 0.5 * kUp * kUp + kUp * kUp * kUp / 6))
  let dypw_dyp := 2 * Y_Plus_White * (P.kappa * Real.sqrt Gam / Q) *
    Real.sqrt (1 - (2 * Gam * U_Plus - Beta) ^ 2 / (Q * Q))
  let Eddy_Visc := max 1e-6 (P.Lam_Visc_Wall * (1 + dypw_dyp -
    P.kappa * Real.exp (-1 * P.kappa * P.B) *
      (1 + P.kappa * U_Plus + P.kappa * P.kappa * U_Plus * U_Plus / 2) -
    P.Lam_Visc_Normal / P.Lam_Visc_Wall))
  let diff := Density_Wall * s.U_Tau * P.WallDistMod / P.Lam_Visc_Wall - Y_Plus
  let grad_diff := Density_Wall * P.WallDistMod / P.Lam_Visc_Wall +
    P.VelTangMod / (s.U_Tau * s.U_Tau) +
    P.kappa / (s.U_Tau * Real.sqrt Gam) * Real.arcsin (U_Plus * Real.sqrt Gam) * Y_Plus_White -
    Real.exp (-1 * P.B * P.kappa) *
      (0.5 * (P.VelTangMod * P.kappa / s.U_Tau) ^ 3 +
       (P.VelTangMod * P.kappa / s.U_Tau) ^ 2 +
       P.VelTangMod * P.kappa / s.U_Tau) / s.U_Tau
  let U_Tau := s.U_Tau - P.relax * (diff / grad_diff)
  { U_Tau := U_Tau, T_Wall := T_Wall, Density_Wall := Density_Wall,
    Y_Plus := Y_Plus, Eddy_Visc := Eddy_Visc, diff := diff,
    grad_diff := grad_diff, lastTempWrite := TW.2 }

/-- The fallback assignment on hitting the iteration cap
(CNSSolver.cpp:1254-1261): `Y_Plus = 30.0; Eddy_Visc_Wall = 1.0;
U_Tau = 1.0`. -/
def wfFallback (s : WFState) : WFState :=
  { s with Y_Plus := 30, Eddy_Visc := 1, U_Tau := 1 }

/-- The Newton `while` loop (CNSSolver.cpp:1186-1262).  Returns the
final state and `true` when the loop exited by convergence
(`fabs(diff) <= 1e-12`), `false` when it exited through the iteration
cap (`counter > max_iter`).  Called with `fuel = max_iter`, so the body
runs at most `max_iter + 1` times, exactly as in the source. -/
noncomputable def wfLoopAux (P : WFParams) : ℕ → WFState → WFState × Bool
  | 0, s =>
    if |s.diff| > 1e-12 then (wfFallback (wfBody P s), false) else (s, true)
  | f + 1, s =>
    if |s.diff| > 1e-12 then wfLoopAux P f (wfBody P s) else (s, true)

/-- Outcome of one wall-function vertex: the diagnostic counter
increments and the per-vertex cache writes
`YPlus[iMarker][iVertex], EddyViscWall[..], UTau[..]` and
`nodes->SetTau_Wall` (`none` if the vertex was skipped). -/
structure WFVertexOut where
  smallYPlusInc : ℕ
  notConvergedInc : ℕ
  writes : Option (ℝ × ℝ × ℝ × ℝ)

/-- One vertex of `SetTau_Wall_WF` (CNSSolver.cpp:1085-1277): the
small-y+ early exit (lines 1176-1183), the Newton loop, and the final
cache writes (lines 1268-1276) with
`Tau_Wall = (1/Density_Wall)*pow(Y_Plus*Lam_Visc_Wall/WallDistMod, 2)`. -/
noncomputable def wfVertex (P : WFParams) : WFVertexOut :=
  let s0 := wfInit P
  let Y_Plus_Start := s0.Density_Wall * s0.U_Tau * P.WallDistMod / P.Lam_Visc_Wall
  if Y_Plus_Start < P.minYPlus then
    { smallYPlusInc := 1, notConvergedInc := 0, writes := none }
  else
    let r := wfLoopAux P P.max_iter s0
    let s := r.1
    let Tau_Wall := (1 / s.Density_Wall) * (s.Y_Plus * P.Lam_Visc_Wall / P.WallDistMod) ^ 2
    { smallYPlusInc := 0, notConvergedInc := if r.2 then 0 else 1,
      writes := some (s.Y_Plus, s.Eddy_Visc, s.U_Tau, Tau_Wall) }

/-! ### Lemmas about the wall-function Newton loop -/

/-- A loop run that ends through the iteration cap leaves the fallback
values `Y_Plus = 30`, `Eddy_Visc = 1`, `U_Tau = 1` in the final state. -/
lemma wfLoopAux_cap_fields (P : WFParams) :
    ∀ (fuel : ℕ) (s : WFState), (wfLoopAux P fuel s).2 = false →
      (wfLoopAux P fuel s).1.Y_Plus = 30 ∧ (wfLoopAux P fuel s).1.Eddy_Visc = 1 ∧
      (wfLoopAux P fuel s).1.U_Tau = 1 := by
  intro fuel
  induction fuel with
  | zero =>
    intro s h
    by_cases hc : |s.diff| > 1e-12
    · rw [wfLoopAux, if_pos hc]
      exact ⟨rfl, rfl, rfl⟩
    · rw [wfLoopAux, if_neg hc] at h
      exact absurd h (by simp)
  | succ f ih =>
    intro s h
    rw [wfLoopAux] at h ⊢
    by_cases hc : |s.diff| > 1e-12
    · rw [if_pos hc] at h ⊢
      exact ih _ h
    · rw [if_neg hc] at h
      exact absurd h (by simp)

/-- A loop run that ends by convergence has `|diff| <= 1e-12` in the
final state, and that state is the initial state or the output of a
body execution. -/
lemma wfLoopAux_converged (P : WFParams) :
    ∀ (fuel : ℕ) (s0 s : WFState), wfLoopAux P fuel s0 = (s, true) →
      |s.diff| ≤ 1e-12 ∧ (s = s0 ∨ ∃ t, s = wfBody P t) := by
  intro fuel
  induction fuel with
  | zero =>
    intro s0 s h
    rw [wfLoopAux] at h
    by_cases hc : |s0.diff| > 1e-12
    · rw [if_pos hc] at h
      exact absurd (congrArg Prod.snd h) (by simp)
    · rw [if_neg hc] at h
      injection h with h1 h2
      subst h1
      exact ⟨le_of_not_lt hc, Or.inl rfl⟩
  | succ f ih =>
    intro s0 s h
    rw [wfLoopAux] at h
    by_cases hc : |s0.diff| > 1e-12
    · rw [if_pos hc] at h
      obtain ⟨h1, h2⟩ := ih _ _ h
      exact ⟨h1, Or.inr (h2.elim (fun he => ⟨s0, he⟩) id)⟩
    · rw [if_neg hc] at h
      injection h with h1 h2
      subst h1
      exact ⟨le_of_not_lt hc, Or.inl rfl⟩

/-- In the output of one body execution, `diff` relates the updated
wall density and `Y_Plus` to the pre-update `U_Tau` exactly as on
CNSSolver.cpp:1238. -/
lemma wfBody_diff_eq (P : WFParams) (t : WFState) :
    (wfBody P t).diff =
      (wfBody P t).Density_Wall * t.U_Tau * P.WallDistMod / P.Lam_Visc_Wall -
      (wfBody P t).Y_Plus := rfl

/-- The Newton step (CNSSolver.cpp:1251): the stored `U_Tau` is the
pre-update value minus `relax * diff / grad_diff`. -/
lemma wfBody_U_Tau_eq (P : WFParams) (t : WFState) :
    (wfBody P t).U_Tau =
      t.U_Tau - P.relax * ((wfBody P t).diff / (wfBody P t).grad_diff) := rfl

/-- The initial `diff` is the literal `1.0` (CNSSolver.cpp:1171). -/
lemma wfInit_diff (P : WFParams) : (wfInit P).diff = 1 := rfl

/-! ## Claim theorems -/

/-- C1.  The claim fails on the compressible path: at the call site
CNSSolver.cpp:970 the arguments `dist_ij` and `thermal_conductivity`
are passed in each other's parameter slots of
`GetCHTWallTemperature(config, val_marker, iVertex,
thermal_conductivity, dist_ij, There, Temperature_Ref)`.  With
`thermal_conductivity = 2`, `dist_ij = 1`, `Viscosity_Ref = 1`,
`There = 1`, `Tconjugate = 0` (`conjVar0 = 0`, `Temperature_Ref = 1`)
and `HF_FactorConjugate = 1`, the claimed flux-weighted average
`(There*(k*mu_ref/dist) + Tconjugate*HF_conj)/((k*mu_ref/dist) + HF_conj)`
is `2/3` — the value the incompressible path computes — while the
compressible path produces `1/3`. -/
theorem cht_averaged_wall_temperature_swapped_arguments :
    cnsCHTWallTemperatureAtCall AVERAGED_TEMPERATURE_NEUMANN_HEATFLUX 1 0 1 1 2 1 1 =
      Except.ok (1/3) ∧
    incCHTWallTemperature AVERAGED_TEMPERATURE_NEUMANN_HEATFLUX 1 0 1 2 1 1 1 =
      Except.ok (2/3) ∧
    (1 * (2 * 1 / 1) + (0 / 1) * 1) / (2 * 1 / 1 + 1) = (2/3 : ℚ) ∧
    (1/3 : ℚ) ≠ 2/3 := by
  refine ⟨?_, ?_, by norm_num, by norm_num⟩ <;>
    norm_num [cnsCHTWallTemperatureAtCall, GetCHTWallTemperature, incCHTWallTemperature,
      AVERAGED_TEMPERATURE_NEUMANN_HEATFLUX, AVERAGED_TEMPERATURE_ROBIN_HEATFLUX,
      DIRECT_TEMPERATURE_NEUMANN_HEATFLUX, DIRECT_TEMPERATURE_ROBIN_HEATFLUX]

/-- C9.  A CHT coupling method equal to none of the four recognized
enumerators makes both the compressible `GetCHTWallTemperature` and the
incompressible conjugate-heat interface abort with the diagnostic
"Unknown CHT coupling method." (embedded as `Except.error`), and an
unknown wall boundary kind makes `CIncNSSolver::BC_Wall_Generic` abort
with "Unknown type of boundary condition"; no path silently defaults. -/
theorem unknown_coupling_and_bc_kind_abort :
    (∀ coupling : ℕ, coupling ≠ AVERAGED_TEMPERATURE_NEUMANN_HEATFLUX →
      coupling ≠ AVERAGED_TEMPERATURE_ROBIN_HEATFLUX →
      coupling ≠ DIRECT_TEMPERATURE_NEUMANN_HEATFLUX →
      coupling ≠ DIRECT_TEMPERATURE_ROBIN_HEATFLUX →
      ∀ vr c0 c2 tc d th tr : ℚ,
        GetCHTWallTemperature coupling vr c0 c2 tc d th tr =
          Except.error "Unknown CHT coupling method." ∧
        incCHTWallTemperature coupling vr c0 c2 tc d th tr =
          Except.error "Unknown CHT coupling method.") ∧
    (∀ kind wf : ℕ, kind ≠ HEAT_FLUX → kind ≠ ISOTHERMAL →
      ∀ cf hr ct tr : ℚ,
        bcWallGenericIncPreamble kind wf cf hr ct tr =
          Except.error "Unknown type of boundary condition") := by
  constructor
  · intro coupling h1 h2 h3 h4 vr c0 c2 tc d th tr
    constructor
    · rw [GetCHTWallTemperature, if_neg (by simp [h1, h2]), if_neg (by simp [h3, h4])]
    · rw [incCHTWallTemperature, if_neg (by simp [h1, h2]), if_neg (by simp [h3, h4])]
  · intro kind wf h1 h2 cf hr ct tr
    rw [bcWallGenericIncPreamble]
    rw [if_neg h1, if_neg h2]
    rfl

/-- C8.  The SST axisymmetric correction returns the residual unchanged
when `Coord_i[1] < EPS` (no `1/y` is formed), and otherwise — where
`Coord_i[1] >= EPS > 0`, hence nonzero — adds
`yinv*Volume*(pk_axi - cdk_axi)` and `yinv*Volume*(pw_axi - cdw_axi)`
with `yinv = 1/Coord_i[1]`; no division by zero occurs. -/
theorem sst_axisymmetric_guard (I : SSTAxiIn) (alfa_blended zeta : ℚ) (Res : ℚ × ℚ)
    (heps : 0 < I.eps) :
    (I.Coord_y < I.eps → ResidualAxisymmetric I alfa_blended zeta Res = Res) ∧
    (¬(I.Coord_y < I.eps) → I.Coord_y ≠ 0 ∧
      (let yinv := 1 / I.Coord_y
       let rhov := I.Density * I.v
       let sigma_k_i := I.F1 * I.sigma_k_1 + (1 - I.F1) * I.sigma_k_2
       let sigma_w_i := I.F1 * I.sigma_w_1 + (1 - I.F1) * I.sigma_w_2
       let pk_axi := max 0 (2/3 * rhov * I.k * (2/zeta * (yinv * I.v - I.dvdy - I.dudx) - 1))
       let pw_axi := alfa_blended * zeta / I.k * pk_axi
       let cdk_axi := rhov * I.k - (I.Laminar_Viscosity + sigma_k_i * I.Eddy_Viscosity) * I.dkdy
       let cdw_axi := rhov * I.w - (I.Laminar_Viscosity + sigma_w_i * I.Eddy_Viscosity) * I.dwdy
       ResidualAxisymmetric I alfa_blended zeta Res =
         (Res.1 + yinv * I.Volume * (pk_axi - cdk_axi),
          Res.2 + yinv * I.Volume * (pw_axi - cdw_axi)))) := by
  constructor
  · intro h
    rw [ResidualAxisymmetric, if_pos h]
  · intro h
    refine ⟨?_, ?_⟩
    · have : I.eps ≤ I.Coord_y := le_of_not_lt h
      exact ne_of_gt (lt_of_lt_of_le heps this)
    · rw [ResidualAxisymmetric, if_neg h]

/-- C10.  On a non-isothermal marker, a Newton iteration whose
Crocco-Busemann denominator `1 + Beta*U_Plus - Gam*U_Plus^2` exceeds
`EPS` writes the recomputed wall temperature `T_Normal/denum` into the
shared primitive state (`nodes->SetTemperature`), while an iteration
whose denominator is `<= EPS` leaves the wall temperature unchanged and
performs no write. -/
theorem wf_body_temperature_write (P : WFParams) (s : WFState)
    (hiso : P.isothermalMarker = false) :
    (let U_Plus := P.VelTangMod / s.U_Tau
     let Gam := P.Recovery * s.U_Tau * s.U_Tau / (2 * P.Cp * s.T_Wall)
     let Beta := P.q_w * P.Lam_Visc_Wall /
       (s.Density_Wall * s.T_Wall * P.Conductivity_Wall * s.U_Tau)
     let denum := 1 + Beta * U_Plus - Gam * U_Plus * U_Plus
     (denum > P.eps →
        (wfBody P s).lastTempWrite = some (P.T_Normal / denum) ∧
        (wfBody P s).T_Wall = P.T_Normal / denum) ∧
     (¬(denum > P.eps) →
        (wfBody P s).lastTempWrite = none ∧
        (wfBody P s).T_Wall = s.T_Wall)) := by
  simp only [wfBody, hiso, Bool.false_eq_true, if_false]
  constructor
  · intro h
    rw [if_pos h]
    exact ⟨rfl, rfl⟩
  · intro h
    rw [if_neg h]
    exact ⟨rfl, rfl⟩

/-- C5.  A wall-function vertex whose initial y+ estimate
`Density_Wall*U_Tau*WallDistMod/Lam_Visc_Wall` (from the warm-start
friction velocity) is below the configured minimum y+ is skipped before
the Newton loop: none of the per-vertex caches (y+, eddy viscosity,
U_tau, tau_wall) is written, the small-y+ counter is incremented by
exactly 1, and the not-converged counter is untouched. -/
theorem wf_small_yplus_skip (P : WFParams)
    (h : (wfInit P).Density_Wall * (wfInit P).U_Tau * P.WallDistMod / P.Lam_Visc_Wall <
         P.minYPlus) :
    (wfVertex P).writes = none ∧ (wfVertex P).smallYPlusInc = 1 ∧
    (wfVertex P).notConvergedInc = 0 := by
  simp only [wfVertex]
  rw [if_pos h]
  exact ⟨rfl, rfl, rfl⟩

/-- C2.  A wall-function vertex whose Newton iteration hits the
configured maximum iteration count does not propagate a failure: the
not-converged counter is incremented by exactly 1 (and the small-y+
counter untouched), the loop exits, and the fallback values
`y+ = 30`, `eddy viscosity = 1`, `U_tau = 1` are stored for that
vertex. -/
theorem wf_cap_fallback (P : WFParams)
    (hskip : ¬((wfInit P).Density_Wall * (wfInit P).U_Tau * P.WallDistMod / P.Lam_Visc_Wall <
               P.minYPlus))
    (hcap : (wfLoopAux P P.max_iter (wfInit P)).2 = false) :
    (wfVertex P).notConvergedInc = 1 ∧ (wfVertex P).smallYPlusInc = 0 ∧
    ∃ tw, (wfVertex P).writes = some (30, 1, 1, tw) := by
  obtain ⟨h30, h1e, h1u⟩ := wfLoopAux_cap_fields P P.max_iter (wfInit P) hcap
  simp only [wfVertex]
  rw [if_neg hskip]
  refine ⟨by rw [hcap]; rfl, rfl, ?_⟩
  exact ⟨_, by rw [h30, h1e, h1u]⟩

/-- C6.  When the Newton loop terminates by convergence, the exit test
guarantees `|diff| <= 1e-12` for the last computed residual
`diff = Density_Wall*U_Tau_pre*WallDistMod/Lam_Visc_Wall - Y_Plus`;
since the stored `U_Tau` differs from the pre-update `U_Tau_pre` only
by the damped Newton step `relax*diff/grad_diff`, the stored pair
`(Y_Plus, U_Tau)` satisfies the defining equation
`Density_Wall*U_Tau*WallDistMod/Lam_Visc_Wall = Y_Plus` to within
`1e-10` whenever the gradient dominates the leading term
(`Density_Wall*WallDistMod/Lam_Visc_Wall <= grad_diff`, positive) and
the relaxation factor lies in `(0, 1]` — as in the log-law regime. -/
theorem wf_converged_defining_equation (P : WFParams) (s : WFState)
    (hrun : wfLoopAux P P.max_iter (wfInit P) = (s, true))
    (hgrad : s.Density_Wall * P.WallDistMod / P.Lam_Visc_Wall ≤ s.grad_diff)
    (hq : 0 < s.Density_Wall * P.WallDistMod / P.Lam_Visc_Wall)
    (hr0 : 0 < P.relax) (hr1 : P.relax ≤ 1) :
    |s.Density_Wall * s.U_Tau * P.WallDistMod / P.Lam_Visc_Wall - s.Y_Plus| ≤ 1e-10 := by
  obtain ⟨hdiff, hcase⟩ := wfLoopAux_converged P P.max_iter (wfInit P) s hrun
  rcases hcase with he | ⟨t, ht⟩
  · exfalso
    rw [he, wfInit_diff] at hdiff
    norm_num at hdiff
  · subst ht
    have hd := wfBody_diff_eq P t
    have hU := wfBody_U_Tau_eq P t
    set D := (wfBody P t).diff with hD
    set g := (wfBody P t).grad_diff with hg
    set q := (wfBody P t).Density_Wall * P.WallDistMod / P.Lam_Visc_Wall with hqdef
    have hgpos : 0 < g := lt_of_lt_of_le hq hgrad
    have key : (wfBody P t).Density_Wall * (wfBody P t).U_Tau * P.WallDistMod /
        P.Lam_Visc_Wall - (wfBody P t).Y_Plus = D * (1 - P.relax * q / g) := by
      rw [hU, hqdef]
      rw [hd]
      ring
    have hfac : |1 - P.relax * q / g| ≤ 1 := by
      have h0 : 0 ≤ P.relax * q / g := div_nonneg (mul_nonneg hr0.le hq.le) hgpos.le
      have h1 : P.relax * q / g ≤ 1 := by
        rw [div_le_one hgpos]
        calc P.relax * q ≤ 1 * q := mul_le_mul_of_nonneg_right hr1 hq.le
          _ = q := one_mul q
          _ ≤ g := hgrad
      rw [abs_le]
      constructor <;> linarith
    calc |(wfBody P t).Density_Wall * (wfBody P t).U_Tau * P.WallDistMod /
          P.Lam_Visc_Wall - (wfBody P t).Y_Plus|
        = |D| * |1 - P.relax * q / g| := by rw [key, abs_mul]
      _ ≤ 1e-12 * 1 := mul_le_mul hdiff hfac (abs_nonneg _) (by norm_num)
      _ ≤ 1e-10 := by norm_num

/-! ### Concrete wall-function scenarios used by the witnesses -/

/-- A vertex whose warm-start y+ estimate is 1, below the configured
minimum y+ of 5: the skip branch is taken. -/
def wfP_skip : WFParams :=
  { VelTangMod := 20, WallDistMod := 1, T_Normal := 1, P_Normal := 1,
    Lam_Visc_Normal := 1, T_init := 1, Lam_Visc_Wall := 1, Conductivity_Wall := 1,
    Eddy_Visc_init := 1, WallShearStress := 1, q_w := 0, isothermalMarker := false,
    Gas_Constant := 1, Cp := 1, Recovery := 1, kappa := 0.41, B := 5,
    relax := 0.5, max_iter := 100, minYPlus := 5, eps := 1e-16 }

/-- Initial state of the skip scenario: wall density 1 and warm-start
friction velocity `max(1e-6, sqrt(1/1)) = 1`. -/
lemma wfP_skip_init :
    (wfInit wfP_skip).Density_Wall = 1 ∧ (wfInit wfP_skip).U_Tau = 1 := by
  constructor
  · show (1 : ℝ) / (1 * 1) = 1
    norm_num
  · show max 1e-6 (Real.sqrt ((1 : ℝ) / (1 / (1 * 1)))) = 1
    rw [show ((1 : ℝ) / (1 / (1 * 1))) = 1 by norm_num, Real.sqrt_one]
    exact max_eq_right (by norm_num)

/-- C5 witness: in the skip scenario the initial y+ estimate is
`1 < 5`, the vertex is skipped with no cache writes and exactly one
small-y+ increment. -/
theorem wf_small_yplus_skip_witness :
    (wfVertex wfP_skip).writes = none ∧ (wfVertex wfP_skip).smallYPlusInc = 1 ∧
    (wfVertex wfP_skip).notConvergedInc = 0 :=
  wf_small_yplus_skip wfP_skip (by
    rw [wfP_skip_init.1, wfP_skip_init.2]
    norm_num [wfP_skip])

/-- A vertex that reaches the Newton loop (warm-start y+ estimate 1,
minimum y+ 1) with `max_iter = 0`, so the very first iteration trips
the cap. -/
def wfP_cap : WFParams :=
  { VelTangMod := 20, WallDistMod := 1, T_Normal := 1, P_Normal := 1,
    Lam_Visc_Normal := 1, T_init := 1, Lam_Visc_Wall := 1, Conductivity_Wall := 1,
    Eddy_Visc_init := 1, WallShearStress := 1, q_w := 0, isothermalMarker := false,
    Gas_Constant := 1, Cp := 1, Recovery := 1, kappa := 0.41, B := 5,
    relax := 0.5, max_iter := 0, minYPlus := 1, eps := 1e-16 }

/-- Initial state of the cap scenario: wall density 1 and warm-start
friction velocity 1. -/
lemma wfP_cap_init :
    (wfInit wfP_cap).Density_Wall = 1 ∧ (wfInit wfP_cap).U_Tau = 1 := by
  constructor
  · show (1 : ℝ) / (1 * 1) = 1
    norm_num
  · show max 1e-6 (Real.sqrt ((1 : ℝ) / (1 / (1 * 1)))) = 1
    rw [show ((1 : ℝ) / (1 / (1 * 1))) = 1 by norm_num, Real.sqrt_one]
    exact max_eq_right (by norm_num)

/-- C2 witness: with `max_iter = 0` the loop is entered (initial
`diff = 1`), the cap fires on the first iteration, and the fallback
values are stored with exactly one not-converged increment. -/
theorem wf_cap_fallback_witness :
    (wfVertex wfP_cap).notConvergedInc = 1 ∧ (wfVertex wfP_cap).smallYPlusInc = 0 ∧
    ∃ tw, (wfVertex wfP_cap).writes = some (30, 1, 1, tw) :=
  wf_cap_fallback wfP_cap
    (by
      rw [wfP_cap_init.1, wfP_cap_init.2]
      norm_num [wfP_cap])
    (by
      rw [show wfP_cap.max_iter = 0 from rfl, wfLoopAux,
        if_pos (by rw [wfInit_diff]; norm_num)])

/-- Parameters for the temperature-write scenario: a non-isothermal
marker with heat flux `q_w = 2`. -/
def wfP_tw : WFParams :=
  { VelTangMod := 2, WallDistMod := 1, T_Normal := 1, P_Normal := 1,
    Lam_Visc_Normal := 1, T_init := 1, Lam_Visc_Wall := 1, Conductivity_Wall := 1,
    Eddy_Visc_init := 1, WallShearStress := 1, q_w := 2, isothermalMarker := false,
    Gas_Constant := 1, Cp := 1, Recovery := 1, kappa := 0.41, B := 5,
    relax := 0.5, max_iter := 100, minYPlus := 5, eps := 1e-16 }

/-- A loop state with unit values: `U_Plus = 2`, `Gam = 1/2`,
`Beta = 2`, so the Crocco-Busemann denominator is `1 + 4 - 2 = 3`. -/
def wfS_tw : WFState :=
  { U_Tau := 1, T_Wall := 1, Density_Wall := 1, Y_Plus := 1, Eddy_Visc := 1,
    diff := 1, grad_diff := 1, lastTempWrite := none }

/-- C10 witness: at the concrete state the denominator is `3 > EPS`,
so the iteration writes `T_Normal/3 = 1/3` through `SetTemperature`. -/
theorem wf_body_temperature_write_witness :
    (wfBody wfP_tw wfS_tw).lastTempWrite = some (1/3) ∧
    (wfBody wfP_tw wfS_tw).T_Wall = 1/3 := by
  have h := wf_body_temperature_write wfP_tw wfS_tw rfl
  norm_num [wfP_tw, wfS_tw] at h ⊢
  exact h

/-- Parameters for the convergence scenario: zero tangential velocity
and zero wall heat flux on an isothermal marker make every
transcendental term of the loop body collapse (`U_Plus = 0`,
`Beta = 0`, `arcsin 0 = 0`, `exp 0 = 1`), so the first iteration
produces `Y_Plus = 0`, `diff = 1e-13 <= 1e-12` and the loop exits by
convergence. -/
def wfP_conv : WFParams :=
  { VelTangMod := 0, WallDistMod := 1e-7, T_Normal := 1, P_Normal := 1,
    Lam_Visc_Normal := 1, T_init := 1, Lam_Visc_Wall := 1, Conductivity_Wall := 1,
    Eddy_Visc_init := 1, WallShearStress := 0, q_w := 0, isothermalMarker := true,
    Gas_Constant := 1, Cp := 1, Recovery := 1, kappa := 1, B := 1,
    relax := 0.5, max_iter := 1, minYPlus := 5, eps := 1e-16 }

/-- The initial state of the convergence scenario, written out. -/
def wfS_conv : WFState :=
  { U_Tau := 1e-6, T_Wall := 1, Density_Wall := 1, Y_Plus := 0.99 * 5,
    Eddy_Visc := 1, diff := 1, grad_diff := 0, lastTempWrite := none }

/-- `wfInit` produces exactly `wfS_conv` in the convergence scenario
(`sqrt(0/1) = 0`, so the warm start is clipped to `1e-6`). -/
lemma wfP_conv_init_eq : wfInit wfP_conv = wfS_conv := by
  simp only [wfInit, wfP_conv, wfS_conv, WFState.mk.injEq]
  norm_num

/-- First loop-body output in the convergence scenario: `diff = 1e-13`. -/
lemma wfS_conv_body_diff : (wfBody wfP_conv wfS_conv).diff = 1e-13 := by
  simp only [wfBody, wfP_conv, wfS_conv]
  norm_num [Real.arcsin_zero, Real.exp_zero]

/-- First loop-body output in the convergence scenario:
`grad_diff = 1e-7`. -/
lemma wfS_conv_body_grad : (wfBody wfP_conv wfS_conv).grad_diff = 1e-7 := by
  simp only [wfBody, wfP_conv, wfS_conv]
  norm_num [Real.arcsin_zero, Real.exp_zero]

/-- First loop-body output in the convergence scenario: wall density 1
(isothermal marker, so the wall temperature stays 1). -/
lemma wfS_conv_body_density : (wfBody wfP_conv wfS_conv).Density_Wall = 1 := by
  simp only [wfBody, wfP_conv, wfS_conv]
  norm_num

/-- The convergence-scenario run enters the loop (initial `diff = 1`)
and exits by convergence after one body execution. -/
lemma wfP_conv_run :
    wfLoopAux wfP_conv wfP_conv.max_iter (wfInit wfP_conv) =
      (wfBody wfP_conv wfS_conv, true) := by
  rw [wfP_conv_init_eq, show wfP_conv.max_iter = 1 from rfl]
  simp only [wfLoopAux]
  rw [if_pos (by rw [show wfS_conv.diff = 1 from rfl]; norm_num)]
  rw [if_neg (by
    rw [wfS_conv_body_diff]
    simp only [not_lt]
    rw [abs_le]
    constructor <;> norm_num)]

/-- C6 witness: in the convergence scenario, the stored `Y_Plus` and
`U_Tau` of the converged state satisfy the defining equation to within
`1e-10`. -/
theorem wf_converged_defining_equation_witness :
    |(wfBody wfP_conv wfS_conv).Density_Wall * (wfBody wfP_conv wfS_conv).U_Tau *
      wfP_conv.WallDistMod / wfP_conv.Lam_Visc_Wall -
      (wfBody wfP_conv wfS_conv).Y_Plus| ≤ 1e-10 :=
  wf_converged_defining_equation wfP_conv (wfBody wfP_conv wfS_conv)
    wfP_conv_run
    (by rw [wfS_conv_body_density, wfS_conv_body_grad]; norm_num [wfP_conv])
    (by rw [wfS_conv_body_density]; norm_num [wfP_conv])
    (by norm_num [wfP_conv])
    (by norm_num [wfP_conv])

/-! ### Lemmas about the wall BC kernels -/

/-- Momentum entries of the residual are zero after
`BC_HeatFlux_Wall_Generic` runs on a vertex (the kernel only adds to
the energy entry `nDim+1` after zeroing rows `1..nDim`). -/
lemma bcHeatFluxWallVertex_momentum (I : HFWallIn) (i : ℕ)
    (h1 : 1 ≤ i) (h2 : i ≤ I.nDim) : (bcHeatFluxWallVertex I).res i = 0 := by
  simp only [bcHeatFluxWallVertex]
  rw [if_neg (by omega : ¬i = I.nDim + 1), if_pos ⟨h1, h2⟩]

/-- Momentum entries of the residual are zero after
`CIncNSSolver::BC_Wall_Generic` runs on a vertex. -/
lemma bcWallGenericIncVertex_momentum (J : IncWallIn) (i : ℕ)
    (h1 : 1 ≤ i) (h2 : i ≤ J.nDim) : (bcWallGenericIncVertex J).res i = 0 := by
  have hne : ¬i = J.nDim + 1 := by omega
  simp only [bcWallGenericIncVertex]
  split_ifs <;> simp [h1, h2, hne]

/-- C4.  On a static wall, after the compressible heat-flux/heat-transfer
wall kernel and the incompressible generic wall kernel run on a vertex:
every momentum entry of the residual is exactly zero, the old velocity
is set to the zero vector, and under an implicit scheme
`DeleteValsRowi` is issued for exactly the momentum rows `1..nDim`
(identity-row replacement). -/
theorem strong_no_slip_enforcement (I : HFWallIn) (J : IncWallIn)
    (hdynI : I.dynamic_grid = false) (hdynJ : J.dynamic_grid = false) :
    (∀ i, 1 ≤ i → i ≤ I.nDim → (bcHeatFluxWallVertex I).res i = 0) ∧
    ((bcHeatFluxWallVertex I).velOld = fun _ => 0) ∧
    (I.implicitScheme = true →
      (bcHeatFluxWallVertex I).deletedRows = (List.range I.nDim).map (· + 1)) ∧
    (∀ i, 1 ≤ i → i ≤ J.nDim → (bcWallGenericIncVertex J).res i = 0) ∧
    ((bcWallGenericIncVertex J).velOld = fun _ => 0) ∧
    (J.implicitScheme = true →
      (bcWallGenericIncVertex J).deletedRows = (List.range J.nDim).map (· + 1)) := by
  refine ⟨fun i h1 h2 => bcHeatFluxWallVertex_momentum I i h1 h2, ?_, ?_,
    fun i h1 h2 => bcWallGenericIncVertex_momentum J i h1 h2, ?_, ?_⟩
  · simp only [bcHeatFluxWallVertex, hdynI, Bool.false_eq_true, if_false]
  · intro himp
    simp only [bcHeatFluxWallVertex, himp, if_true]
  · simp only [bcWallGenericIncVertex, hdynJ, Bool.false_eq_true, if_false]
    split_ifs <;> rfl
  · intro himp
    simp only [bcWallGenericIncVertex, himp, if_true]
    split_ifs <;> rfl

/-- C3.  On a static isothermal wall (compressible path: temperature
from the configuration, conductivity `Cp*(mu/Pr_lam + mu_t/Pr_turb)`;
incompressible path: nodal conductivity), the boundary kernel changes
the energy residual entry by exactly
`-thermal_conductivity*(T_wall - T_neighbor)/dist * Area` — the
claimed expression `thermal_conductivity*(T_wall - T_neighbor)/dist *
Area` up to the solver's outward-flux sign convention. -/
theorem isothermal_wall_energy_residual (I : IsoWallIn) (J : IncWallIn)
    (hdynI : I.dynamic_grid = false) (hchtI : I.cht_mode = false)
    (hpyI : I.pyCustom = false)
    (hdynJ : J.dynamic_grid = false) (hkindJ : J.kind_boundary = ISOTHERMAL)
    (henJ : J.energy = true) :
    (∃ out, bcIsothermalWallVertex I = Except.ok out ∧
      out.res (I.nDim + 1) = I.res0 (I.nDim + 1) -
        (I.Gamma / (I.Gamma - 1) * I.Gas_Constant *
          (I.laminar_viscosity / I.Prandtl_Lam + I.eddy_viscosity / I.Prandtl_Turb)) *
          ((I.Twall_cfg - I.There) / I.dist_ij) * I.Area) ∧
    (bcWallGenericIncVertex J).res (J.nDim + 1) = J.res0 (J.nDim + 1) -
      J.thermal_conductivity * ((J.Twall - J.There) / J.dist_ij) * J.Area := by
  constructor
  · simp only [bcIsothermalWallVertex, hchtI, hpyI, hdynI, Bool.false_eq_true, if_false,
      pure_bind]
    refine ⟨_, rfl, ?_⟩
    have hne : ¬(1 ≤ I.nDim + 1 ∧ I.nDim + 1 ≤ I.nDim) := by omega
    simp only [hne, if_false, eq_self_iff_true, if_true]
    ring
  · simp only [bcWallGenericIncVertex, henJ, hkindJ, ISOTHERMAL, HEAT_FLUX]
    norm_num

/-- Adding zero to a Jacobian entry is the identity update. -/
@[simp] lemma jacAdd_zero (J : ℕ → ℕ → ℚ) (r c : ℕ) : jacAdd J r c 0 = J := by
  funext i j
  simp [jacAdd]

/-- Zeroing a row of the zero block is the zero block. -/
@[simp] lemma jacZeroRow_jacZero (r n : ℕ) : jacZeroRow jacZero r n = jacZero := by
  funext i j
  simp [jacZeroRow, jacZero]

/-- C7.  Running the heat-transfer-coefficient wall condition with
`Transfer_Coefficient = 0` produces exactly the same residual row,
effective Jacobian update, `DeleteValsRowi` calls and old-velocity
write as the prescribed-heat-flux wall condition with zero wall heat
flux; the computed wall heat flux `h*(T_inf - T_wall)` itself is zero
(on a non-Python-custom marker). -/
theorem heat_transfer_zero_coefficient_is_zero_heat_flux (I : HFWallIn) :
    (bcHeatFluxWallVertex { I with kind_boundary := HEAT_TRANSFER, Transfer_Coefficient := 0 }).res =
      (bcHeatFluxWallVertex { I with kind_boundary := HEAT_FLUX, cfgHeatFlux := 0 }).res ∧
    appliedJac (bcHeatFluxWallVertex { I with kind_boundary := HEAT_TRANSFER, Transfer_Coefficient := 0 }) =
      appliedJac (bcHeatFluxWallVertex { I with kind_boundary := HEAT_FLUX, cfgHeatFlux := 0 }) ∧
    (bcHeatFluxWallVertex { I with kind_boundary := HEAT_TRANSFER, Transfer_Coefficient := 0 }).deletedRows =
      (bcHeatFluxWallVertex { I with kind_boundary := HEAT_FLUX, cfgHeatFlux := 0 }).deletedRows ∧
    (bcHeatFluxWallVertex { I with kind_boundary := HEAT_TRANSFER, Transfer_Coefficient := 0 }).velOld =
      (bcHeatFluxWallVertex { I with kind_boundary := HEAT_FLUX, cfgHeatFlux := 0 }).velOld ∧
    (I.pyCustom = false →
      (bcHeatFluxWallVertex { I with kind_boundary := HEAT_TRANSFER, Transfer_Coefficient := 0 }).wallHeatFlux = 0) := by
  by_cases hp : I.pyCustom <;> by_cases hd : I.dynamic_grid <;>
    by_cases hi : I.implicitScheme <;>
      refine ⟨?_, ?_, ?_, ?_, ?_⟩ <;>
        simp [bcHeatFluxWallVertex, appliedJac, hp, hd, hi,
          HEAT_TRANSFER, HEAT_FLUX]

/-! ### Concrete boundary-condition scenarios used by the witnesses -/

/-- A concrete static, implicit, 2-D heat-flux wall vertex. -/
def hfExample : HFWallIn :=
  { nDim := 2, kind_boundary := HEAT_FLUX, implicitScheme := true,
    dynamic_grid := false, pyCustom := false, customHeatFlux := 0,
    cfgHeatFlux := 7, Transfer_Coefficient := 3, Tinfinity := 10,
    Gamma := 2, Gas_Constant := 1, Normal := fun _ => 1, Area := 1,
    T_i := 4, Density := 1, Vel2 := 0, Vel := fun _ => 0, Pressure := 1,
    laminar_viscosity := 1, eddy_viscosity := 1, tau := fun _ _ => 0,
    GridVel := fun _ => 0, dist_ij := 1, res0 := fun _ => 5 }

/-- A concrete static, explicit, 2-D isothermal wall vertex for the
compressible kernel: conductivity `Cp*(1/1 + 1/1) = 4`, wall
temperature 2, neighbor temperature 1, unit distance and area. -/
def isoExample : IsoWallIn :=
  { nDim := 2, implicitScheme := false, dynamic_grid := false,
    cht_mode := false, pyCustom := false, cht_coupling := 0,
    Viscosity_Ref := 1, conjVar0 := 0, conjVar2 := 1, Temperature_Ref := 1,
    Twall_cfg := 2, Twall_custom := 0, Prandtl_Lam := 1, Prandtl_Turb := 1,
    Gas_Constant := 1, Gamma := 2, Normal := fun _ => 1, Area := 1,
    dist_ij := 1, laminar_viscosity := 1, eddy_viscosity := 1, There := 1,
    Density := 1, Vel2 := 0, Pressure := 1, tau := fun _ _ => 0,
    GridVel := fun _ => 0, res0 := fun _ => 5 }

/-- A concrete static, implicit, 2-D isothermal wall vertex for the
incompressible kernel: conductivity 3, wall temperature 2, neighbor
temperature 1. -/
def incIsoExample : IncWallIn :=
  { nDim := 2, kind_boundary := ISOTHERMAL, implicitScheme := true,
    dynamic_grid := false, energy := true, streamwise_periodic := false,
    streamwise_periodic_temperature := false, Wall_HeatFlux := 0,
    Twall := 2, Normal := fun _ => 1, Area := 1, GridVel := fun _ => 0,
    Cp := 1, thermal_conductivity := 3, There := 1,
    Edge_Vector := fun _ => 1, dist_ij := 1,
    Streamwise_Periodic_IntegratedHeatFlow := 0,
    Streamwise_Periodic_MassFlow := 1, translation := fun _ => 1,
    res0 := fun _ => 5 }

/-- C3 witness: the instantiated energy-residual identities at the
concrete isothermal vertices, with all flag hypotheses discharged. -/
theorem isothermal_wall_energy_residual_witness :
    (∃ out, bcIsothermalWallVertex isoExample = Except.ok out ∧
      out.res (isoExample.nDim + 1) = isoExample.res0 (isoExample.nDim + 1) -
        (isoExample.Gamma / (isoExample.Gamma - 1) * isoExample.Gas_Constant *
          (isoExample.laminar_viscosity / isoExample.Prandtl_Lam +
           isoExample.eddy_viscosity / isoExample.Prandtl_Turb)) *
          ((isoExample.Twall_cfg - isoExample.There) / isoExample.dist_ij) *
          isoExample.Area) ∧
    (bcWallGenericIncVertex incIsoExample).res (incIsoExample.nDim + 1) =
      incIsoExample.res0 (incIsoExample.nDim + 1) -
      incIsoExample.thermal_conductivity *
        ((incIsoExample.Twall - incIsoExample.There) / incIsoExample.dist_ij) *
        incIsoExample.Area :=
  isothermal_wall_energy_residual isoExample incIsoExample rfl rfl rfl rfl rfl rfl

/-- C4 witness: the concrete static vertices have zero momentum
residual entries, zero old velocity, and momentum rows `[1, 2]`
deleted. -/
theorem strong_no_slip_enforcement_witness :
    (bcHeatFluxWallVertex hfExample).res 1 = 0 ∧
    (bcHeatFluxWallVertex hfExample).res 2 = 0 ∧
    ((bcHeatFluxWallVertex hfExample).velOld = fun _ => 0) ∧
    (bcHeatFluxWallVertex hfExample).deletedRows = (List.range 2).map (· + 1) ∧
    (bcWallGenericIncVertex incIsoExample).res 1 = 0 ∧
    ((bcWallGenericIncVertex incIsoExample).velOld = fun _ => 0) ∧
    (bcWallGenericIncVertex incIsoExample).deletedRows = (List.range 2).map (· + 1) := by
  have h := strong_no_slip_enforcement hfExample incIsoExample rfl rfl
  exact ⟨h.1 1 (by decide) (by decide), h.1 2 (by decide) (by decide), h.2.1,
    h.2.2.1 rfl, h.2.2.2.1 1 (by decide) (by decide), h.2.2.2.2.1, h.2.2.2.2.2 rfl⟩

/-- C7 witness: at the concrete non-custom vertex the heat-transfer
kernel with zero coefficient computes a zero wall heat flux. -/
theorem heat_transfer_zero_coefficient_witness :
    (bcHeatFluxWallVertex
      { hfExample with kind_boundary := HEAT_TRANSFER, Transfer_Coefficient := 0 }).wallHeatFlux = 0 :=
  (heat_transfer_zero_coefficient_is_zero_heat_flux hfExample).2.2.2.2 rfl

/-- A concrete axisymmetric source input whose y-coordinate is 1 with
`EPS = 1e-16`: the correction is applied, with `pk_axi = max 0 0 = 0`
and `cdk_axi = cdw_axi = -1`. -/
def sstAxiExample : SSTAxiIn :=
  { eps := 1e-16, Coord_y := 1, Volume := 1, Density := 1, v := 1, k := 1,
    w := 1, F1 := 1, sigma_k_1 := 1, sigma_k_2 := 0, sigma_w_1 := 1,
    sigma_w_2 := 0, Laminar_Viscosity := 1, Eddy_Viscosity := 1,
    dvdy := 0, dudx := 0, dkdy := 1, dwdy := 1 }

/-- C8 witness: at the concrete off-axis input the guard does not
fire, the coordinate is nonzero, and the correction adds `(1, 1)` to
the residual. -/
theorem sst_axisymmetric_guard_witness :
    sstAxiExample.Coord_y ≠ 0 ∧
    ResidualAxisymmetric sstAxiExample 1 2 (0, 0) = (1, 1) := by
  have h := (sst_axisymmetric_guard sstAxiExample 1 2 (0, 0)
    (by norm_num [sstAxiExample])).2 (by norm_num [sstAxiExample])
  refine ⟨h.1, ?_⟩
  rw [h.2]
  norm_num [sstAxiExample]

/-- C9 witness: the coupling code 7 (not one of the four enumerators)
and the boundary kind 9 produce the two abort diagnostics. -/
theorem unknown_coupling_and_bc_kind_abort_witness :
    GetCHTWallTemperature 7 1 1 1 1 1 1 1 =
      Except.error "Unknown CHT coupling method." ∧
    incCHTWallTemperature 7 1 1 1 1 1 1 1 =
      Except.error "Unknown CHT coupling method." ∧
    bcWallGenericIncPreamble 9 0 1 1 1 1 =
      Except.error "Unknown type of boundary condition" := by
  have h1 := unknown_coupling_and_bc_kind_abort.1 7
    (by decide) (by decide) (by decide) (by decide) 1 1 1 1 1 1 1
  have h2 := unknown_coupling_and_bc_kind_abort.2 9 0
    (by decide) (by decide) 1 1 1 1
  exact ⟨h1.1, h1.2, h2⟩
